import Mathlib

/-!
Verification of the Shorts worker pipeline (a four-stage media pipeline:
download, AI analysis, edit/crop, upload) against its natural-language
specification.  Each Python module is shallowly embedded as pure Lean
definitions; external effects (ffprobe/ffmpeg, the inference service, the
Drive API, the filesystem) are supplied as explicit environment values so
the control flow of the embedded code can be proved about.
-/

set_option autoImplicit false

namespace Shorts

/-- Python truthiness of an optional string (as used by `if path:` and
`all([...])` in the source): `None` and the empty string are falsy. -/
def truthy : Option String → Bool
  | none => false
  | some s => !s.isEmpty

namespace Editor

/-- The crop width computed by the ffmpeg filter expression
`trunc(ih*9/16/2)*2` built in `VideoEditor.process_video`
(editor.py line 84).  ffmpeg evaluates the arithmetic over reals and
`trunc` truncates toward zero; for the nonnegative input height this is
the floor, modelled over `ℚ`. -/
def cropWidth (ih : ℕ) : ℤ := 2 * ⌊((ih : ℚ) * 9 / 16) / 2⌋

/-- The spec's crop-width formula: `floor(height * 9/16)` rounded down to
an even number. -/
def specCropWidth (ih : ℕ) : ℤ :=
  ⌊((ih : ℚ) * 9 / 16)⌋ - ⌊((ih : ℚ) * 9 / 16)⌋ % 2

/-- The horizontal crop offset expression `(iw-ow)/2` of the filter, with
`ow` the crop width chosen for input height `ih` (exact rational value as
evaluated by ffmpeg). -/
def cropXOffset (iw ih : ℕ) : ℚ := ((iw : ℚ) - (cropWidth ih : ℚ)) / 2

/-- Parameters of the `crop=w:h:x:y` filter emitted to ffmpeg. -/
structure CropParams where
  w : ℤ
  h : ℕ
  x : ℚ
  y : ℕ
deriving DecidableEq, Repr

/-- The optional `-vf crop=...` filter built by `process_video`: when the
probed input is vertical (`height > width`) no crop filter is added at
all; otherwise the centred 9:16 crop
`crop=trunc(ih*9/16/2)*2:ih:(iw-ow)/2:0` is used. -/
def cropFilter (width height : ℕ) : Option CropParams :=
  if height > width then none
  else some ⟨cropWidth height, height, cropXOffset width height, 0⟩

/-- Result dictionary returned by `VideoEditor.process_video`: either a
success dict carrying the output file path or an error dict carrying a
message. -/
inductive EditResult
  | ok (file_path : String)
  | err (message : String)
deriving DecidableEq, Repr

/-- The ffmpeg invocation built by `process_video`: the input path, the
`-ss`/`-to` trim bounds passed verbatim from the caller, the optional
crop filter and the output path. -/
structure FfmpegInvocation where
  input : String
  startTime : String
  endTime : String
  vf : Option CropParams
  output : String
deriving DecidableEq, Repr

/-- External environment of one `process_video` call: the outcome of the
`ffprobe` probe in `get_video_info` (dimensions, or a raised exception),
whether the `ffmpeg` subprocess exits successfully, and whether the
output file exists afterwards. -/
structure EditorEnv where
  probe : Except String (ℕ × ℕ)
  ffmpegOk : Bool
  outputExists : Bool
deriving Repr

/-- Outcome of a `process_video` call: the returned dict together with
the ffmpeg invocation that was actually run, if any. -/
structure EditOutcome where
  result : EditResult
  invoked : Option FfmpegInvocation
deriving Repr

/-- Shallow embedding of `VideoEditor.process_video` (editor.py lines
39-109).  The probed width/height select whether the crop filter is
appended; the `-ss`/`-to` arguments are the caller's `start_time` and
`end_time` strings, passed through without any validation.  A probe
failure is caught by the outer `except` and becomes an error dict; an
ffmpeg failure (`CalledProcessError`) becomes the fixed encoding error
message; a missing output file becomes the `FileNotFoundError` message. -/
def process_video (env : EditorEnv) (file_path start_time end_time output_path : String) :
    EditOutcome :=
  match env.probe with
  | .error e => ⟨.err e, none⟩
  | .ok (width, height) =>
    let inv : FfmpegInvocation :=
      ⟨file_path, start_time, end_time, cropFilter width height, output_path⟩
    if env.ffmpegOk then
      if env.outputExists then ⟨.ok output_path, some inv⟩
      else ⟨.err "FFmpeg finished but output file is missing.", some inv⟩
    else ⟨.err "Video processing failed during encoding.", some inv⟩

/-- Whether a `process_video` call with this environment fails, for any
arguments: the probe raised, ffmpeg exited non-zero, or the output file
is missing.  The trim arguments play no role in success. -/
def editorFails (env : EditorEnv) : Bool :=
  match env.probe with
  | .error _ => true
  | .ok _ => !(env.ffmpegOk && env.outputExists)

end Editor

namespace Intelligence

/-- The structured judgment parsed from the inference response in
`AIProcessor.get_timestamps`.  Each field is optional because the parsed
JSON object may omit schema fields; `main.py` indexes `start_time` and
`end_time` directly (a `KeyError` if absent) and reads
`suggested_title`/`reasoning` through `.get` with defaults. -/
structure AIData where
  start_time : Option String
  end_time : Option String
  virality_score : Option ℤ
  reasoning : Option String
  suggested_title : Option String
deriving DecidableEq, Repr

/-- Behaviour of the inference service during `AIProcessor.upload_file`:
either `genai.upload_file` raises (no remote copy exists), or the upload
succeeds (a remote copy now exists at the service) and then a polling
`genai.get_file` call raises, or polling ends in the `FAILED` state, or
the file becomes ready.  The unbounded-polling gap (a remote stuck in
`PROCESSING` forever) is outside the terminating behaviours modelled
here. -/
inductive UploadEnv
  | uploadRaises (message : String)
  | pollRaises (remoteName message : String)
  | finalFailed (remoteName : String)
  | ready (remoteName : String)
deriving DecidableEq, Repr

/-- Outcome of `AIProcessor.upload_file`: the returned remote file name
or the raised exception's message, plus whether a remote copy of the
uploaded file now exists at the inference service. -/
structure UploadOutcome where
  result : Except String String
  remoteUploaded : Bool
deriving Repr

/-- Shallow embedding of `AIProcessor.upload_file` (intelligence.py lines
36-57): any failure is re-raised after logging; a `FAILED` processing
state raises `ValueError` with a fixed message.  In every branch after a
successful `genai.upload_file` call the remote copy exists. -/
def upload_file : UploadEnv → UploadOutcome
  | .uploadRaises m => ⟨.error m, false⟩
  | .pollRaises _ m => ⟨.error m, true⟩
  | .finalFailed _ => ⟨.error "Video processing failed on Google servers.", true⟩
  | .ready n => ⟨.ok n, true⟩

/-- Environment of one `AIProcessor.get_timestamps` call: the upload
behaviour plus the combined outcome of model construction,
`generate_content` and `json.loads` (steps 2-4), which either raises or
yields the parsed structured result. -/
structure AnalyzeEnv where
  upload : UploadEnv
  analysisStep : Except String AIData
deriving Repr

/-- Outcome of `get_timestamps`: the returned dict (success data or error
message), whether a remote copy was uploaded to the service, and whether
`genai.delete_file` was called on it. -/
structure AnalyzeOutcome where
  result : Except String AIData
  remoteUploaded : Bool
  remoteDeleted : Bool
deriving Repr

/-- Shallow embedding of `AIProcessor.get_timestamps` (intelligence.py
lines 59-108).  `video_file` starts as `None`; it is assigned only when
`self.upload_file` returns.  The `finally` block calls
`genai.delete_file` only when `video_file` is truthy — so when
`upload_file` raises (including after a successful remote upload whose
processing failed), no deletion happens. -/
def get_timestamps (env : AnalyzeEnv) : AnalyzeOutcome :=
  let u := upload_file env.upload
  match u.result with
  | .error m => ⟨.error m, u.remoteUploaded, false⟩
  | .ok _ =>
    match env.analysisStep with
    | .error m => ⟨.error m, u.remoteUploaded, true⟩
    | .ok d => ⟨.ok d, u.remoteUploaded, true⟩

end Intelligence

namespace Downloader

/-- One media format offered by the source, as yt-dlp sees it: vertical
resolution, container extension, whether it carries a video and/or an
audio stream, and yt-dlp's quality ranking used by `best...`
selectors. -/
structure MediaFormat where
  height : ℕ
  ext : String
  hasVideo : Bool
  hasAudio : Bool
  quality : ℕ
deriving DecidableEq, Repr

/-- What a format selector resolves to: either a merge of a video-only
and an audio-only format (the `+` operator) or a single format. -/
inductive Selection
  | merged (video audio : MediaFormat)
  | single (f : MediaFormat)
deriving DecidableEq, Repr

/-- The vertical resolution of the video stream of a selection. -/
def selectionHeight : Selection → ℕ
  | .merged v _ => v.height
  | .single f => f.height

/-- Highest-quality format of a candidate list (yt-dlp's `best...`
choice). -/
def bestOf (l : List MediaFormat) : Option MediaFormat :=
  l.foldl
    (fun acc f =>
      match acc with
      | none => some f
      | some g => if g.quality < f.quality then some f else some g)
    none

/-- A video-only format (`bestvideo` candidates). -/
def videoOnly (f : MediaFormat) : Bool := f.hasVideo && !f.hasAudio

/-- An audio-only format (`bestaudio` candidates). -/
def audioOnly (f : MediaFormat) : Bool := f.hasAudio && !f.hasVideo

/-- A format with both video and audio (`best` candidates). -/
def complete (f : MediaFormat) : Bool := f.hasVideo && f.hasAudio

/-- Shallow embedding of the yt-dlp format selector string
`bestvideo[height<=1080][ext=mp4]+bestaudio[ext=m4a]/best[ext=mp4]/best`
from `VideoDownloader.download_video` (downloader.py line 29), with
yt-dlp's documented semantics: `/`-separated alternatives are tried in
order, `+` merges a video-only and an audio-only pick (both must
resolve), bracketed conditions filter candidates, and only the first
alternative carries the `height<=1080` bound. -/
def selectFormat (fmts : List MediaFormat) : Option Selection :=
  match bestOf (fmts.filter fun f => videoOnly f && decide (f.height ≤ 1080) && f.ext == "mp4"),
        bestOf (fmts.filter fun f => audioOnly f && f.ext == "m4a") with
  | some v, some a => some (.merged v a)
  | _, _ =>
    match bestOf (fmts.filter fun f => complete f && f.ext == "mp4") with
    | some f => some (.single f)
    | none => (bestOf (fmts.filter complete)).map .single

end Downloader

namespace Uploader

/-- Environment-provided configuration and external behaviour of a
`DriveUploader` construction: the four environment variables read in
`__init__` plus the outcome of the `_authenticate` body (building the
Drive service from the refresh credentials, which may raise). -/
structure DriveEnv where
  client_id : Option String
  client_secret : Option String
  refresh_token : Option String
  parent_folder_id : Option String
  authResult : Except String Unit
deriving Repr

/-- Shallow embedding of `DriveUploader.__init__` (uploader.py lines
12-42): if any of client id/secret/refresh token is falsy, a
`ValueError` with a fixed message is raised; otherwise `_authenticate`
runs at construction time and its exception, if any, propagates out of
the constructor. -/
def DriveUploader_init (env : DriveEnv) : Except String Unit :=
  if !(truthy env.client_id && truthy env.client_secret && truthy env.refresh_token) then
    .error "Missing Google OAuth credentials in environment variables."
  else env.authResult

/-- One call against the Drive API, as issued by the uploader code:
either a `files().create` (with the object name and parent folder list)
or a `permissions().create` (with file id, role and grantee type). -/
inductive DriveApiCall
  | filesCreate (name : String) (parents : List String)
  | permissionsCreate (fileId role type_ : String)
deriving DecidableEq, Repr

/-- Whether an API call is a permission grant. -/
def isPermissionsCreate : DriveApiCall → Bool
  | .permissionsCreate _ _ _ => true
  | .filesCreate _ _ => false

/-- The parents list placed in the file metadata: present only when the
configured folder id is truthy. -/
def parentsOf : Option String → List String
  | none => []
  | some p => if p.isEmpty then [] else [p]

/-- External behaviour of one `upload_file` call: whether the local file
exists, and the outcome of the `files().create(...).execute()` request
(file id and webViewLink, or a raised exception). -/
structure UploadEnv where
  fileExists : Bool
  createResult : Except String (String × String)
deriving Repr

/-- Result of `DriveUploader.upload_file`: `raised` models the
`FileNotFoundError` thrown before the `try` block (it propagates to the
caller), `err` the error dict built by the `except` handler, `ok` the
success dict with file id and drive link. -/
inductive UploadResult
  | raised (message : String)
  | err (message : String)
  | ok (file_id drive_link : String)
deriving DecidableEq, Repr

/-- Shallow embedding of `DriveUploader.upload_file` (uploader.py lines
44-93), returning the result together with the trace of Drive API calls
issued.  The only API call ever made is `files().create`; no
`permissions().create` call exists in this code path. -/
def upload_file (env : UploadEnv) (parent_folder_id : Option String)
    (file_path video_title : String) : UploadResult × List DriveApiCall :=
  if !env.fileExists then
    (.raised ("File to upload not found: " ++ file_path), [])
  else
    match env.createResult with
    | .error m => (.err m, [.filesCreate (video_title ++ " #Shorts") (parentsOf parent_folder_id)])
    | .ok (fid, link) =>
      (.ok fid link, [.filesCreate (video_title ++ " #Shorts") (parentsOf parent_folder_id)])

end Uploader

namespace Config

/-- External behaviour of the legacy `upload_to_drive` helper in
config.py: outcomes of the `files().create` and `permissions().create`
requests. -/
structure LegacyEnv where
  createResult : Except String (String × String)
  permissionResult : Except String Unit
deriving Repr

/-- Shallow embedding of `upload_to_drive` (config.py lines 30-55): after
a successful `files().create` it issues a `permissions().create` with
role `reader` and type `anyone` (a public-read grant) before returning
the webViewLink; exceptions propagate to the caller. -/
def upload_to_drive (env : LegacyEnv) (folder_id : String) (file_path filename : String) :
    Except String String × List Uploader.DriveApiCall :=
  match env.createResult with
  | .error m => (.error m, [.filesCreate filename [folder_id]])
  | .ok (fid, link) =>
    match env.permissionResult with
    | .error m =>
      (.error m,
       [.filesCreate filename [folder_id], .permissionsCreate fid "reader" "anyone"])
    | .ok _ =>
      (.ok link,
       [.filesCreate filename [folder_id], .permissionsCreate fid "reader" "anyone"])

end Config

namespace Main

/-- Events observable during one `process_video` request in `main.py`:
the four stage invocations, the point where the Job's result (success
payload or caught exception) is determined, and the scheduling of the
cleanup background task with its list of tracked paths. -/
inductive Ev
  | download
  | analyze
  | edit
  | upload
  | resultDetermined
  | scheduleCleanup (paths : List (Option String))
deriving DecidableEq, Repr

/-- The HTTP-level response of the `/process-video` endpoint: the
success payload (original title, generated title, drive link, the two
timestamps and the reasoning string) or an `HTTPException` with status
500 and a detail message. -/
inductive Response
  | success (original_video generated_short_title drive_link ts_start ts_end reasoning : String)
  | httpError (detail : String)
deriving DecidableEq, Repr

/-- The dict returned by `VideoDownloader.download_video` as consumed by
`main.py`: an error dict with a message, or a success dict carrying the
local file path and (optionally, read through `.get` with default
`"Untitled Video"`) the video title. -/
inductive DlResult
  | err (message : String)
  | ok (file_path : String) (title : Option String)
deriving DecidableEq, Repr

/-- Shallow embedding of `AIProcessor.__init__` (intelligence.py lines
22-34): a falsy API key raises `ValueError` with a fixed message. -/
def AIProcessor_init (api_key : Option String) : Except String Unit :=
  if truthy api_key then .ok () else .error "API Key is required for AIProcessor"

/-- External environment of one request: the configured Gemini API key,
the constructor outcomes of the downloader and editor (their `makedirs`
may raise), the Drive uploader's environment, and the behaviour of each
pipeline stage. `editOutPath` is the uuid-based output path generated
inside the editor. -/
structure PipelineEnv where
  apiKey : Option String
  downloaderInit : Except String Unit
  editorInit : Except String Unit
  driveEnv : Uploader.DriveEnv
  download : DlResult
  analyzeEnv : Intelligence.AnalyzeEnv
  editorEnv : Editor.EditorEnv
  editOutPath : String
  uploadEnv : Uploader.UploadEnv
deriving Repr

/-- The service-initialization block of `process_video` (main.py lines
54-61): the four collaborators are constructed in order and the first
raised exception aborts initialization. -/
def initAll (env : PipelineEnv) : Except String Unit :=
  match env.downloaderInit with
  | .error e => .error e
  | .ok _ =>
    match AIProcessor_init env.apiKey with
    | .error e => .error e
    | .ok _ =>
      match env.editorInit with
      | .error e => .error e
      | .ok _ => Uploader.DriveUploader_init env.driveEnv

/-- Outcome of one request: the response, the ordered event trace, and
the final values of the `downloaded_file` and `processed_file`
variables tracked for cleanup. -/
structure RunOutcome where
  response : Response
  events : List Ev
  downloaded : Option String
  processed : Option String
deriving Repr

/-- Shallow embedding of the orchestrator `process_video` (main.py lines
46-130).  Initialization failure raises before the `try`/`finally`, so
no stage runs and no cleanup is scheduled.  Inside the `try`, each stage
error raises a prefixed exception caught by the `except` handler,
producing a 500 response; missing `start_time`/`end_time` keys raise
`KeyError` (detail is the quoted key name).  The `finally` block runs
after the result is determined and schedules `cleanup_files` exactly
once with `[downloaded_file, processed_file]`. -/
def process_video (env : PipelineEnv) : RunOutcome :=
  match initAll env with
  | .error e => ⟨.httpError ("Service Start Failed: " ++ e), [], none, none⟩
  | .ok _ =>
    match env.download with
    | .err m =>
      ⟨.httpError ("Download failed: " ++ m),
       [.download, .resultDetermined, .scheduleCleanup [none, none]], none, none⟩
    | .ok file_path title? =>
      let video_title := title?.getD "Untitled Video"
      match (Intelligence.get_timestamps env.analyzeEnv).result with
      | .error m =>
        ⟨.httpError ("AI Analysis failed: " ++ m),
         [.download, .analyze, .resultDetermined, .scheduleCleanup [some file_path, none]],
         some file_path, none⟩
      | .ok ai_data =>
        match ai_data.start_time, ai_data.end_time with
        | none, _ =>
          ⟨.httpError "'start_time'",
           [.download, .analyze, .resultDetermined, .scheduleCleanup [some file_path, none]],
           some file_path, none⟩
        | some _, none =>
          ⟨.httpError "'end_time'",
           [.download, .analyze, .resultDetermined, .scheduleCleanup [some file_path, none]],
           some file_path, none⟩
        | some start_time, some end_time =>
          let viral_title := ai_data.suggested_title.getD video_title
          match (Editor.process_video env.editorEnv file_path start_time end_time
              env.editOutPath).result with
          | .err m =>
            ⟨.httpError ("Editing failed: " ++ m),
             [.download, .analyze, .edit, .resultDetermined, .scheduleCleanup [some file_path, none]],
             some file_path, none⟩
          | .ok processed_file =>
            match (Uploader.upload_file env.uploadEnv env.driveEnv.parent_folder_id
                processed_file viral_title).1 with
            | .raised m =>
              ⟨.httpError m,
               [.download, .analyze, .edit, .upload, .resultDetermined,
                .scheduleCleanup [some file_path, some processed_file]],
               some file_path, some processed_file⟩
            | .err m =>
              ⟨.httpError ("Upload failed: " ++ m),
               [.download, .analyze, .edit, .upload, .resultDetermined,
                .scheduleCleanup [some file_path, some processed_file]],
               some file_path, some processed_file⟩
            | .ok _ drive_link =>
              ⟨.success video_title viral_title drive_link start_time end_time
                 (ai_data.reasoning.getD ""),
               [.download, .analyze, .edit, .upload, .resultDetermined,
                .scheduleCleanup [some file_path, some processed_file]],
               some file_path, some processed_file⟩

/-- One line of the log produced by `cleanup_files`: a path was removed,
or its removal raised and the exception was caught and logged. -/
inductive CleanupEntry
  | removed (path : String)
  | failedLogged (path : String)
deriving DecidableEq, Repr

/-- The path an entry is about. -/
def entryPath : CleanupEntry → String
  | .removed s => s
  | .failedLogged s => s

/-- Shallow embedding of `cleanup_files` (main.py lines 34-42) with the
filesystem supplied as `fsExists` and the behaviour of `os.remove` as
`removeOk`.  The `Except` layer records an exception escaping to the
caller; since the loop body guards each path with
`if path and os.path.exists(path)` and wraps `os.remove` in
`try`/`except`, the `.error` constructor is never produced. -/
def cleanup_files (fsExists removeOk : String → Bool) :
    List (Option String) → Except String (List CleanupEntry)
  | [] => .ok []
  | none :: rest => cleanup_files fsExists removeOk rest
  | some s :: rest =>
    match cleanup_files fsExists removeOk rest with
    | .error e => .error e
    | .ok tail =>
      if !s.isEmpty && fsExists s then
        if removeOk s then .ok (.removed s :: tail) else .ok (.failedLogged s :: tail)
      else .ok tail

/-- A concrete request environment in which every collaborator and every
stage succeeds; the AI result omits `suggested_title` and `reasoning`. -/
def envHappy : PipelineEnv :=
  ⟨some "key", .ok (), .ok (),
   ⟨some "cid", some "csec", some "rtok", none, .ok ()⟩,
   .ok "raw.mp4" (some "Original Title"),
   ⟨.ready "files/vid1", .ok ⟨some "00:00:10", some "00:01:20", some 9, none, none⟩⟩,
   ⟨.ok (1920, 1080), true, true⟩,
   "out.mp4",
   ⟨true, .ok ("fid", "https://drive/v")⟩⟩

/-- Variant of `envHappy` with the download stage failing. -/
def envFetchErr : PipelineEnv :=
  ⟨some "key", .ok (), .ok (),
   ⟨some "cid", some "csec", some "rtok", none, .ok ()⟩,
   .err "boom",
   ⟨.ready "files/vid1", .ok ⟨some "00:00:10", some "00:01:20", some 9, none, none⟩⟩,
   ⟨.ok (1920, 1080), true, true⟩,
   "out.mp4",
   ⟨true, .ok ("fid", "https://drive/v")⟩⟩

/-- Variant of `envHappy` with the Drive authentication step raising at
construction time (credentials present but rejected). -/
def envAuthErr : PipelineEnv :=
  ⟨some "key", .ok (), .ok (),
   ⟨some "cid", some "csec", some "rtok", none, .error "invalid_grant"⟩,
   .ok "raw.mp4" (some "Original Title"),
   ⟨.ready "files/vid1", .ok ⟨some "00:00:10", some "00:01:20", some 9, none, none⟩⟩,
   ⟨.ok (1920, 1080), true, true⟩,
   "out.mp4",
   ⟨true, .ok ("fid", "https://drive/v")⟩⟩

end Main

namespace Editor

/-- Floor of a quotient of casts of naturals in `ℚ` is natural division. -/
theorem floor_natCast_div (m d : ℕ) : ⌊((m : ℚ)) / (d : ℚ)⌋ = (m : ℤ) / (d : ℤ) := by
  have h := Rat.floor_intCast_div_natCast (m : ℤ) d
  simpa using h

/-- The ffmpeg crop-width expression reduces to an integer division
by 32. -/
theorem cropWidth_div (ih : ℕ) : cropWidth ih = 2 * (((9 * ih : ℕ) : ℤ) / 32) := by
  unfold cropWidth
  have harg : ((ih : ℚ) * 9 / 16) / 2 = ((9 * ih : ℕ) : ℚ) / ((32 : ℕ) : ℚ) := by
    push_cast
    ring
  rw [harg, floor_natCast_div (9 * ih) 32]
  norm_num

/-- The code's crop width agrees with the spec's formula
(`floor(h*9/16)` rounded down to even) for every input height. -/
theorem cropWidth_eq_specCropWidth (ih : ℕ) : cropWidth ih = specCropWidth ih := by
  unfold cropWidth specCropWidth
  have harg : ((ih : ℚ) * 9 / 16) / 2 = ((9 * ih : ℕ) : ℚ) / ((32 : ℕ) : ℚ) := by
    push_cast
    ring
  have harg2 : ((ih : ℚ) * 9 / 16) = ((9 * ih : ℕ) : ℚ) / ((16 : ℕ) : ℚ) := by
    push_cast
    ring
  rw [harg, harg2, floor_natCast_div (9 * ih) 32, floor_natCast_div (9 * ih) 16]
  omega

/-- Concrete evaluation: for input height 1080 the emitted crop width
is 606. -/
theorem cropWidth_1080 : cropWidth 1080 = 606 := by
  have h := cropWidth_div 1080
  norm_num at h
  exact h

/-- Concrete evaluation: for a 1920x1080 input the crop x-offset
evaluates to 657. -/
theorem cropXOffset_1920_1080 : cropXOffset 1920 1080 = 657 := by
  unfold cropXOffset
  rw [cropWidth_1080]
  norm_num

/-- Concrete evaluation of the emitted filter for a 1920x1080 input. -/
theorem cropFilter_1920_1080 : cropFilter 1920 1080 = some ⟨606, 1080, 657, 0⟩ := by
  unfold cropFilter
  rw [if_neg (by norm_num)]
  rw [cropWidth_1080, cropXOffset_1920_1080]

/-- The editor `process_video` returns an error dict exactly when `editorFails`. -/
theorem process_video_err_iff (env : EditorEnv) (fp s e op : String) :
    (∃ m, (process_video env fp s e op).result = .err m) ↔ editorFails env = true := by
  unfold process_video editorFails
  rcases env with ⟨probe, ffmpegOk, outputExists⟩
  cases probe with
  | error e => simp
  | ok wh =>
    cases wh with
    | mk w h =>
      cases ffmpegOk <;> cases outputExists <;> simp

/-- On editor success the returned path is the generated output path. -/
theorem process_video_ok (env : EditorEnv) (fp s e op : String)
    (h : editorFails env = false) :
    (process_video env fp s e op).result = .ok op := by
  unfold process_video
  unfold editorFails at h
  rcases env with ⟨probe, ffmpegOk, outputExists⟩
  cases probe with
  | error m => simp at h
  | ok wh =>
    cases wh with
    | mk w hh =>
      cases ffmpegOk <;> cases outputExists <;> simp_all

end Editor

namespace Downloader

/-- The selector `bestOf` only ever picks a member of its candidate list. -/
theorem bestOf_mem : ∀ (l : List MediaFormat) (f : MediaFormat), bestOf l = some f → f ∈ l := by
  have step : ∀ (l : List MediaFormat) (acc : Option MediaFormat) (f : MediaFormat),
      l.foldl
        (fun acc f =>
          match acc with
          | none => some f
          | some g => if g.quality < f.quality then some f else some g)
        acc = some f → f ∈ l ∨ acc = some f := by
    intro l
    induction l with
    | nil =>
      intro acc f h
      exact Or.inr h
    | cons x xs ih =>
      intro acc f h
      simp only [List.foldl_cons] at h
      rcases ih _ f h with hmem | hacc
      · exact Or.inl (List.mem_cons_of_mem x hmem)
      · cases acc with
        | none =>
          simp at hacc
          exact Or.inl (hacc ▸ List.mem_cons_self x xs)
        | some g =>
          by_cases hlt : g.quality < x.quality
          · simp [hlt] at hacc
            exact Or.inl (hacc ▸ List.mem_cons_self x xs)
          · simp [hlt] at hacc
            exact Or.inr (congrArg some hacc)
  intro l f h
  rcases step l none f h with hmem | hacc
  · exact hmem
  · simp at hacc

end Downloader

namespace Main

/-- The routine `cleanup_files` always returns a log (the `.error` constructor is
unreachable) and every logged deletion attempt concerns a truthy path
that exists on the filesystem. -/
theorem cleanup_files_ok (fsExists removeOk : String → Bool) (ps : List (Option String)) :
    ∃ log, cleanup_files fsExists removeOk ps = .ok log ∧
      ∀ e ∈ log, fsExists (entryPath e) = true ∧ (entryPath e).isEmpty = false := by
  induction ps with
  | nil => exact ⟨[], rfl, by simp⟩
  | cons p rest ih =>
    obtain ⟨log, hlog, hprop⟩ := ih
    cases p with
    | none => exact ⟨log, by simpa [cleanup_files] using hlog, hprop⟩
    | some s =>
      by_cases hc : (!s.isEmpty && fsExists s) = true
      · have hFalse : s.isEmpty = false := by
          rcases Bool.and_eq_true_iff.mp hc with ⟨h1, _⟩
          simpa using h1
        have hEx : fsExists s = true := (Bool.and_eq_true_iff.mp hc).2
        by_cases hr : removeOk s = true
        · refine ⟨.removed s :: log, ?_, ?_⟩
          · simp [cleanup_files, hlog, hc, hr]
          · intro e he
            rcases List.mem_cons.mp he with rfl | he'
            · exact ⟨hEx, hFalse⟩
            · exact hprop e he'
        · refine ⟨.failedLogged s :: log, ?_, ?_⟩
          · simp [cleanup_files, hlog, hc, hr]
          · intro e he
            rcases List.mem_cons.mp he with rfl | he'
            · exact ⟨hEx, hFalse⟩
            · exact hprop e he'
      · refine ⟨log, ?_, hprop⟩
        simp [cleanup_files, hlog, hc]

/-- Run reduction: initialization failure. -/
theorem run_init_error (env : PipelineEnv) (e : String) (h : initAll env = .error e) :
    process_video env = ⟨.httpError ("Service Start Failed: " ++ e), [], none, none⟩ := by
  simp only [process_video, h]

/-- Run reduction: the download stage returns an error dict. -/
theorem run_download_err (env : PipelineEnv) (m : String)
    (hinit : initAll env = .ok ()) (hd : env.download = .err m) :
    process_video env =
      ⟨.httpError ("Download failed: " ++ m),
       [.download, .resultDetermined, .scheduleCleanup [none, none]], none, none⟩ := by
  simp only [process_video, hinit, hd]

/-- Run reduction: the AI analysis stage returns an error dict. -/
theorem run_analyze_err (env : PipelineEnv) (fp : String) (t : Option String) (m : String)
    (hinit : initAll env = .ok ()) (hd : env.download = .ok fp t)
    (hga : (Intelligence.get_timestamps env.analyzeEnv).result = .error m) :
    process_video env =
      ⟨.httpError ("AI Analysis failed: " ++ m),
       [.download, .analyze, .resultDetermined, .scheduleCleanup [some fp, none]],
       some fp, none⟩ := by
  simp only [process_video, hinit, hd, hga]

/-- Run reduction: the AI data lacks `start_time` (`KeyError`). -/
theorem run_key_error_start (env : PipelineEnv) (fp : String) (t : Option String)
    (ai_data : Intelligence.AIData)
    (hinit : initAll env = .ok ()) (hd : env.download = .ok fp t)
    (hga : (Intelligence.get_timestamps env.analyzeEnv).result = .ok ai_data)
    (hs : ai_data.start_time = none) :
    process_video env =
      ⟨.httpError "'start_time'",
       [.download, .analyze, .resultDetermined, .scheduleCleanup [some fp, none]],
       some fp, none⟩ := by
  simp only [process_video, hinit, hd, hga, hs]

/-- Run reduction: the AI data lacks `end_time` (`KeyError`). -/
theorem run_key_error_end (env : PipelineEnv) (fp : String) (t : Option String)
    (ai_data : Intelligence.AIData) (st : String)
    (hinit : initAll env = .ok ()) (hd : env.download = .ok fp t)
    (hga : (Intelligence.get_timestamps env.analyzeEnv).result = .ok ai_data)
    (hs : ai_data.start_time = some st) (he : ai_data.end_time = none) :
    process_video env =
      ⟨.httpError "'end_time'",
       [.download, .analyze, .resultDetermined, .scheduleCleanup [some fp, none]],
       some fp, none⟩ := by
  simp only [process_video, hinit, hd, hga, hs, he]

/-- Run reduction: the editing stage returns an error dict. -/
theorem run_edit_err (env : PipelineEnv) (fp : String) (t : Option String)
    (ai_data : Intelligence.AIData) (st en em : String)
    (hinit : initAll env = .ok ()) (hd : env.download = .ok fp t)
    (hga : (Intelligence.get_timestamps env.analyzeEnv).result = .ok ai_data)
    (hs : ai_data.start_time = some st) (he : ai_data.end_time = some en)
    (hem : (Editor.process_video env.editorEnv fp st en env.editOutPath).result = .err em) :
    process_video env =
      ⟨.httpError ("Editing failed: " ++ em),
       [.download, .analyze, .edit, .resultDetermined, .scheduleCleanup [some fp, none]],
       some fp, none⟩ := by
  simp only [process_video, hinit, hd, hga, hs, he, hem]

/-- Run reduction: the upload raises `FileNotFoundError`. -/
theorem run_upload_raised (env : PipelineEnv) (fp : String) (t : Option String)
    (ai_data : Intelligence.AIData) (st en pf m : String)
    (hinit : initAll env = .ok ()) (hd : env.download = .ok fp t)
    (hga : (Intelligence.get_timestamps env.analyzeEnv).result = .ok ai_data)
    (hs : ai_data.start_time = some st) (he : ai_data.end_time = some en)
    (hee : (Editor.process_video env.editorEnv fp st en env.editOutPath).result = .ok pf)
    (hup : (Uploader.upload_file env.uploadEnv env.driveEnv.parent_folder_id pf
        (ai_data.suggested_title.getD (t.getD "Untitled Video"))).1 = .raised m) :
    process_video env =
      ⟨.httpError m,
       [.download, .analyze, .edit, .upload, .resultDetermined,
        .scheduleCleanup [some fp, some pf]],
       some fp, some pf⟩ := by
  simp only [process_video, hinit, hd, hga, hs, he, hee, hup]

/-- Run reduction: the upload stage returns an error dict. -/
theorem run_upload_err (env : PipelineEnv) (fp : String) (t : Option String)
    (ai_data : Intelligence.AIData) (st en pf m : String)
    (hinit : initAll env = .ok ()) (hd : env.download = .ok fp t)
    (hga : (Intelligence.get_timestamps env.analyzeEnv).result = .ok ai_data)
    (hs : ai_data.start_time = some st) (he : ai_data.end_time = some en)
    (hee : (Editor.process_video env.editorEnv fp st en env.editOutPath).result = .ok pf)
    (hup : (Uploader.upload_file env.uploadEnv env.driveEnv.parent_folder_id pf
        (ai_data.suggested_title.getD (t.getD "Untitled Video"))).1 = .err m) :
    process_video env =
      ⟨.httpError ("Upload failed: " ++ m),
       [.download, .analyze, .edit, .upload, .resultDetermined,
        .scheduleCleanup [some fp, some pf]],
       some fp, some pf⟩ := by
  simp only [process_video, hinit, hd, hga, hs, he, hee, hup]

/-- Run reduction: the fully successful pipeline. -/
theorem run_success (env : PipelineEnv) (fp : String) (t : Option String)
    (ai_data : Intelligence.AIData) (st en pf fid link : String)
    (hinit : initAll env = .ok ()) (hd : env.download = .ok fp t)
    (hga : (Intelligence.get_timestamps env.analyzeEnv).result = .ok ai_data)
    (hs : ai_data.start_time = some st) (he : ai_data.end_time = some en)
    (hee : (Editor.process_video env.editorEnv fp st en env.editOutPath).result = .ok pf)
    (hup : (Uploader.upload_file env.uploadEnv env.driveEnv.parent_folder_id pf
        (ai_data.suggested_title.getD (t.getD "Untitled Video"))).1 = .ok fid link) :
    process_video env =
      ⟨.success (t.getD "Untitled Video")
         (ai_data.suggested_title.getD (t.getD "Untitled Video")) link st en
         (ai_data.reasoning.getD ""),
       [.download, .analyze, .edit, .upload, .resultDetermined,
        .scheduleCleanup [some fp, some pf]],
       some fp, some pf⟩ := by
  simp only [process_video, hinit, hd, hga, hs, he, hee, hup]

end Main

/-- C1 (counterexample): for a 1920x1080 landscape input with no focus
hint, the crop filter emitted by `VideoEditor.process_video` is
`crop=606:1080:657:0`, not the claimed width 608 with offset 656. -/
theorem C1_counterexample :
    Editor.cropFilter 1920 1080 = some ⟨606, 1080, 657, 0⟩ ∧
    Editor.cropFilter 1920 1080 ≠ some ⟨608, 1080, 656, 0⟩ := by
  refine ⟨Editor.cropFilter_1920_1080, ?_⟩
  rw [Editor.cropFilter_1920_1080]
  intro h
  rw [Option.some_inj] at h
  have hw : (606 : ℤ) = 608 := congrArg Editor.CropParams.w h
  norm_num at hw

/-- C1 (amended): for a 1920x1080 landscape input with no focus hint the
crop filter selects a target width equal to `floor(1080*9/16)` rounded
down to an even number, namely 606, with horizontal offset
`(1920-606)/2 = 657`; the code's width expression agrees with that spec
formula at every input height; and for any portrait input (height
greater than width) no crop filter parameters are emitted at all. -/
theorem C1_crop_math :
    Editor.cropFilter 1920 1080 = some ⟨606, 1080, 657, 0⟩ ∧
    (∀ ih : ℕ, Editor.cropWidth ih = Editor.specCropWidth ih) ∧
    (∀ iw ih : ℕ, iw < ih → Editor.cropFilter iw ih = none) := by
  refine ⟨Editor.cropFilter_1920_1080, Editor.cropWidth_eq_specCropWidth, ?_⟩
  intro iw ih hlt
  unfold Editor.cropFilter
  rw [if_pos hlt]

/-- C1 (witness): the portrait case of `C1_crop_math` at the concrete
1080x1920 input. -/
theorem C1_crop_math_witness :
    (1080 : ℕ) < 1920 ∧ Editor.cropFilter 1080 1920 = none :=
  ⟨by norm_num, C1_crop_math.2.2 1080 1920 (by norm_num)⟩

/-- C2: `VideoEditor.process_video` performs no validation of the
segment bounds.  At the failing input `start_time = "00:00:10"`,
`end_time = "00:00:05"` (end before start) it still builds and runs the
ffmpeg invocation with those bounds and, when the encoder reports
success, returns a success dict — it never rejects the segment.  In
general the ffmpeg invocation happens whenever the probe succeeds,
independently of the trim arguments. -/
theorem C2_no_segment_validation :
    (Editor.process_video ⟨.ok (1920, 1080), true, true⟩ "raw.mp4" "00:00:10" "00:00:05"
        "out.mp4").result = .ok "out.mp4" ∧
    (Editor.process_video ⟨.ok (1920, 1080), true, true⟩ "raw.mp4" "00:00:10" "00:00:05"
        "out.mp4").invoked =
      some ⟨"raw.mp4", "00:00:10", "00:00:05", Editor.cropFilter 1920 1080, "out.mp4"⟩ ∧
    (∀ (env : Editor.EditorEnv) (fp s e op : String),
      (Editor.process_video env fp s e op).invoked.isSome =
        (match env.probe with | .ok _ => true | .error _ => false)) := by
  refine ⟨rfl, rfl, ?_⟩
  intro env fp s e op
  unfold Editor.process_video
  rcases env with ⟨probe, f, o⟩
  rcases probe with m | ⟨w, h⟩
  · rfl
  · cases f <;> cases o <;> rfl

/-- C3: when the upload to the inference service succeeds but the
service-side processing ends in the `FAILED` state, `upload_file` raises
before `video_file` is assigned in `get_timestamps`, so the `finally`
cleanup never calls `genai.delete_file`: the remote copy is uploaded but
not deleted.  By contrast, whenever `upload_file` returns (file ready),
the remote copy is deleted no matter how the analysis step ends. -/
theorem C3_remote_copy_leak :
    (Intelligence.get_timestamps
        ⟨.finalFailed "files/vid1",
         .ok ⟨some "00:00:10", some "00:01:20", some 9, some "r", some "t"⟩⟩).remoteUploaded
      = true ∧
    (Intelligence.get_timestamps
        ⟨.finalFailed "files/vid1",
         .ok ⟨some "00:00:10", some "00:01:20", some 9, some "r", some "t"⟩⟩).remoteDeleted
      = false ∧
    (Intelligence.get_timestamps
        ⟨.finalFailed "files/vid1",
         .ok ⟨some "00:00:10", some "00:01:20", some 9, some "r", some "t"⟩⟩).result
      = .error "Video processing failed on Google servers." ∧
    (∀ (n : String) (step : Except String Intelligence.AIData),
      (Intelligence.get_timestamps ⟨.ready n, step⟩).remoteDeleted = true) := by
  refine ⟨rfl, rfl, rfl, ?_⟩
  intro n step
  unfold Intelligence.get_timestamps
  cases step <;> rfl

/-- C5: `DriveUploader.upload_file` never issues a `permissions().create`
call — in no run of it (success or failure) is any public-read grant
made; on a successful upload the only API call is `files().create` and
the returned link is the plain `webViewLink`.  The legacy
`upload_to_drive` helper in config.py, by contrast, does issue the
public-read `permissions().create` with role `reader` and type
`anyone`. -/
theorem C5_no_public_read_grant :
    (∀ (env : Uploader.UploadEnv) (pid : Option String) (fp vt : String),
      (Uploader.upload_file env pid fp vt).2.filter Uploader.isPermissionsCreate = []) ∧
    (Uploader.upload_file ⟨true, .ok ("fid9", "https://drive/view9")⟩ none "short.mp4"
        "My Clip").1 = .ok "fid9" "https://drive/view9" ∧
    (Config.upload_to_drive ⟨.ok ("fid9", "https://drive/view9"), .ok ()⟩ "folder7" "short.mp4"
        "Short_x.mp4").2.filter Uploader.isPermissionsCreate =
      [.permissionsCreate "fid9" "reader" "anyone"] := by
  refine ⟨?_, rfl, rfl⟩
  intro env pid fp vt
  unfold Uploader.upload_file
  rcases env with ⟨fe, cr⟩
  cases fe
  · rfl
  · rcases cr with m | ⟨fid, link⟩ <;> rfl

/-- C8 (counterexample): with a single available 2160p mp4 format
carrying both streams, the first selector alternative does not match and
the `best[ext=mp4]` fallback selects the 2160p format — the bounded
1080p ceiling does not hold on every branch of the fallback chain. -/
theorem C8_counterexample :
    (Downloader.selectFormat [⟨2160, "mp4", true, true, 100⟩]).map Downloader.selectionHeight
      = some 2160 ∧
    ¬(2160 : ℕ) ≤ 1080 := by
  exact ⟨rfl, by norm_num⟩

/-- C8 (amended): only the first alternative of the format selector
bounds the video height: whenever selection resolves through the
`bestvideo[height<=1080][ext=mp4]+bestaudio[ext=m4a]` branch (a merged
selection), the chosen video stream is at most 1080p; the `best[ext=mp4]`
and `best` fallbacks impose no ceiling. -/
theorem C8_primary_selector_bounded (fmts : List Downloader.MediaFormat)
    (v a : Downloader.MediaFormat)
    (h : Downloader.selectFormat fmts = some (.merged v a)) :
    v.height ≤ 1080 := by
  unfold Downloader.selectFormat at h
  cases hva : Downloader.bestOf
      (fmts.filter fun f =>
        Downloader.videoOnly f && decide (f.height ≤ 1080) && f.ext == "mp4") with
  | some v' =>
    cases hab : Downloader.bestOf
        (fmts.filter fun f => Downloader.audioOnly f && f.ext == "m4a") with
    | some a' =>
      rw [hva, hab] at h
      simp only [Option.some_inj] at h
      have hmem := Downloader.bestOf_mem _ v' hva
      have hfil := (List.mem_filter.mp hmem).2
      have hv : v' = v := by
        have := congrArg
          (fun s => match s with
            | Downloader.Selection.merged x _ => x
            | Downloader.Selection.single x => x) h
        simpa using this
      rw [← hv]
      have hb : decide (v'.height ≤ 1080) = true := by
        rcases Bool.and_eq_true_iff.mp hfil with ⟨h1, _⟩
        exact (Bool.and_eq_true_iff.mp h1).2
      exact of_decide_eq_true hb
    | none =>
      rw [hva, hab] at h
      cases hc : Downloader.bestOf
          (fmts.filter fun f => Downloader.complete f && f.ext == "mp4") with
      | some f =>
        rw [hc] at h
        simp at h
      | none =>
        rw [hc] at h
        cases hd : Downloader.bestOf (fmts.filter Downloader.complete) with
        | some f =>
          rw [hd] at h
          simp at h
        | none =>
          rw [hd] at h
          simp at h
  | none =>
    rw [hva] at h
    cases hc : Downloader.bestOf
        (fmts.filter fun f => Downloader.complete f && f.ext == "mp4") with
    | some f =>
      rw [hc] at h
      simp at h
    | none =>
      rw [hc] at h
      cases hd : Downloader.bestOf (fmts.filter Downloader.complete) with
      | some f =>
        rw [hd] at h
        simp at h
      | none =>
        rw [hd] at h
        simp at h

/-- C8 (witness): a format list resolving through the first alternative;
the selected video stream is within the 1080p ceiling. -/
theorem C8_primary_selector_bounded_witness :
    (⟨1080, "mp4", true, false, 50⟩ : Downloader.MediaFormat).height ≤ 1080 :=
  C8_primary_selector_bounded
    [⟨1080, "mp4", true, false, 50⟩, ⟨0, "m4a", false, true, 10⟩]
    ⟨1080, "mp4", true, false, 50⟩ ⟨0, "m4a", false, true, 10⟩ rfl

/-- C4: if the download stage returns an error, the Job terminates with
the fetch error (tagged `Download failed:`) and none of analyze, edit or
upload is ever invoked; moreover after an analysis-stage failure neither
edit nor upload runs, and after an editing-stage failure upload does not
run. -/
theorem C4_short_circuit (env : Main.PipelineEnv) :
    (∀ m, Main.initAll env = .ok () → env.download = .err m →
      (Main.process_video env).response = .httpError ("Download failed: " ++ m) ∧
      Main.Ev.analyze ∉ (Main.process_video env).events ∧
      Main.Ev.edit ∉ (Main.process_video env).events ∧
      Main.Ev.upload ∉ (Main.process_video env).events) ∧
    (∀ m, (Intelligence.get_timestamps env.analyzeEnv).result = .error m →
      Main.Ev.edit ∉ (Main.process_video env).events ∧
      Main.Ev.upload ∉ (Main.process_video env).events) ∧
    (Editor.editorFails env.editorEnv = true →
      Main.Ev.upload ∉ (Main.process_video env).events) := by
  refine ⟨?_, ?_, ?_⟩
  · intro m hinit hd
    rw [Main.run_download_err env m hinit hd]
    exact ⟨rfl, by simp, by simp, by simp⟩
  · intro m hga
    cases hinit : Main.initAll env with
    | error e =>
      rw [Main.run_init_error env e hinit]
      exact ⟨by simp, by simp⟩
    | ok u =>
      cases u
      cases hd : env.download with
      | err dm =>
        rw [Main.run_download_err env dm hinit hd]
        exact ⟨by simp, by simp⟩
      | ok fp t =>
        rw [Main.run_analyze_err env fp t m hinit hd hga]
        exact ⟨by simp, by simp⟩
  · intro hef
    cases hinit : Main.initAll env with
    | error e =>
      rw [Main.run_init_error env e hinit]
      simp
    | ok u =>
      cases u
      cases hd : env.download with
      | err dm =>
        rw [Main.run_download_err env dm hinit hd]
        simp
      | ok fp t =>
        cases hga : (Intelligence.get_timestamps env.analyzeEnv).result with
        | error m =>
          rw [Main.run_analyze_err env fp t m hinit hd hga]
          simp
        | ok ai_data =>
          cases hs : ai_data.start_time with
          | none =>
            rw [Main.run_key_error_start env fp t ai_data hinit hd hga hs]
            simp
          | some st =>
            cases he : ai_data.end_time with
            | none =>
              rw [Main.run_key_error_end env fp t ai_data st hinit hd hga hs he]
              simp
            | some en =>
              obtain ⟨em, hem⟩ :=
                (Editor.process_video_err_iff env.editorEnv fp st en env.editOutPath).mpr hef
              rw [Main.run_edit_err env fp t ai_data st en em hinit hd hga hs he hem]
              simp

/-- C4 (witness): the short-circuit at a concrete failing download. -/
theorem C4_short_circuit_witness :
    (Main.process_video Main.envFetchErr).response =
      .httpError ("Download failed: " ++ "boom") ∧
    Main.Ev.analyze ∉ (Main.process_video Main.envFetchErr).events ∧
    Main.Ev.edit ∉ (Main.process_video Main.envFetchErr).events ∧
    Main.Ev.upload ∉ (Main.process_video Main.envFetchErr).events :=
  (C4_short_circuit Main.envFetchErr).1 "boom" rfl rfl

/-- C6: when initialization fails, no stage runs and nothing is tracked;
otherwise the run schedules cleanup exactly once, after the result is
determined, with exactly the tracked `downloaded_file` and
`processed_file`; the path returned by a successful download is tracked
as `downloaded_file` and the editor's output path as `processed_file`;
and `cleanup_files` itself always returns a log rather than raising. -/
theorem C6_cleanup_exactly_once (env : Main.PipelineEnv) :
    ((∃ e, Main.initAll env = .error e) → (Main.process_video env).events = []) ∧
    (Main.initAll env = .ok () →
      ∃ pre,
        (Main.process_video env).events =
          pre ++ [Main.Ev.resultDetermined,
                  Main.Ev.scheduleCleanup
                    [(Main.process_video env).downloaded,
                     (Main.process_video env).processed]] ∧
        (∀ ps, Main.Ev.scheduleCleanup ps ∉ pre) ∧
        Main.Ev.resultDetermined ∉ pre) ∧
    (∀ p t, Main.initAll env = .ok () → env.download = .ok p t →
      (Main.process_video env).downloaded = some p) ∧
    (∀ p t ai_data st en, Main.initAll env = .ok () → env.download = .ok p t →
      (Intelligence.get_timestamps env.analyzeEnv).result = .ok ai_data →
      ai_data.start_time = some st → ai_data.end_time = some en →
      Editor.editorFails env.editorEnv = false →
      (Main.process_video env).processed = some env.editOutPath) ∧
    (∀ fsExists removeOk ps, ∃ log,
      Main.cleanup_files fsExists removeOk ps = .ok log) := by
  have leaves : Main.initAll env = .ok () → ∀ fp t, env.download = .ok fp t →
      ∃ pre pf,
        Main.process_video env =
          ⟨(Main.process_video env).response,
           pre ++ [Main.Ev.resultDetermined,
                   Main.Ev.scheduleCleanup [some fp, pf]], some fp, pf⟩ ∧
        (∀ ps, Main.Ev.scheduleCleanup ps ∉ pre) ∧
        Main.Ev.resultDetermined ∉ pre := by
    intro hinit fp t hd
    cases hga : (Intelligence.get_timestamps env.analyzeEnv).result with
    | error m =>
      rw [Main.run_analyze_err env fp t m hinit hd hga]
      exact ⟨[.download, .analyze], none, rfl, by simp, by simp⟩
    | ok ai_data =>
      cases hs : ai_data.start_time with
      | none =>
        rw [Main.run_key_error_start env fp t ai_data hinit hd hga hs]
        exact ⟨[.download, .analyze], none, rfl, by simp, by simp⟩
      | some st =>
        cases he : ai_data.end_time with
        | none =>
          rw [Main.run_key_error_end env fp t ai_data st hinit hd hga hs he]
          exact ⟨[.download, .analyze], none, rfl, by simp, by simp⟩
        | some en =>
          cases hee : (Editor.process_video env.editorEnv fp st en env.editOutPath).result with
          | err em =>
            rw [Main.run_edit_err env fp t ai_data st en em hinit hd hga hs he hee]
            exact ⟨[.download, .analyze, .edit], none, rfl, by simp, by simp⟩
          | ok pf =>
            cases hup : (Uploader.upload_file env.uploadEnv env.driveEnv.parent_folder_id pf
                (ai_data.suggested_title.getD (t.getD "Untitled Video"))).1 with
            | raised m =>
              rw [Main.run_upload_raised env fp t ai_data st en pf m hinit hd hga hs he hee hup]
              exact ⟨[.download, .analyze, .edit, .upload], some pf, rfl, by simp, by simp⟩
            | err m =>
              rw [Main.run_upload_err env fp t ai_data st en pf m hinit hd hga hs he hee hup]
              exact ⟨[.download, .analyze, .edit, .upload], some pf, rfl, by simp, by simp⟩
            | ok fid link =>
              rw [Main.run_success env fp t ai_data st en pf fid link hinit hd hga hs he hee hup]
              exact ⟨[.download, .analyze, .edit, .upload], some pf, rfl, by simp, by simp⟩
  refine ⟨?_, ?_, ?_, ?_, ?_⟩
  · rintro ⟨e, he⟩
    rw [Main.run_init_error env e he]
  · intro hinit
    cases hd : env.download with
    | err m =>
      rw [Main.run_download_err env m hinit hd]
      exact ⟨[.download], rfl, by simp, by simp⟩
    | ok fp t =>
      obtain ⟨pre, pf, hrun, hpre1, hpre2⟩ := leaves hinit fp t hd
      refine ⟨pre, ?_, hpre1, hpre2⟩
      rw [hrun]
  · intro p t hinit hd
    obtain ⟨pre, pf, hrun, -, -⟩ := leaves hinit p t hd
    rw [hrun]
  · intro p t ai_data st en hinit hd hga hs he hed
    have hee := Editor.process_video_ok env.editorEnv p st en env.editOutPath hed
    cases hup : (Uploader.upload_file env.uploadEnv env.driveEnv.parent_folder_id env.editOutPath
        (ai_data.suggested_title.getD (t.getD "Untitled Video"))).1 with
    | raised m =>
      rw [Main.run_upload_raised env p t ai_data st en env.editOutPath m hinit hd hga hs he hee hup]
    | err m =>
      rw [Main.run_upload_err env p t ai_data st en env.editOutPath m hinit hd hga hs he hee hup]
    | ok fid link =>
      rw [Main.run_success env p t ai_data st en env.editOutPath fid link hinit hd hga hs he hee hup]
  · intro fsExists removeOk ps
    obtain ⟨log, hlog, -⟩ := Main.cleanup_files_ok fsExists removeOk ps
    exact ⟨log, hlog⟩

/-- C6 (witness): the single cleanup scheduling and the tracked download
path on a concrete fully successful run. -/
theorem C6_cleanup_exactly_once_witness :
    (∃ pre,
      (Main.process_video Main.envHappy).events =
        pre ++ [Main.Ev.resultDetermined,
                Main.Ev.scheduleCleanup
                  [(Main.process_video Main.envHappy).downloaded,
                   (Main.process_video Main.envHappy).processed]] ∧
      (∀ ps, Main.Ev.scheduleCleanup ps ∉ pre) ∧
      Main.Ev.resultDetermined ∉ pre) ∧
    (Main.process_video Main.envHappy).downloaded = some "raw.mp4" :=
  ⟨(C6_cleanup_exactly_once Main.envHappy).2.1 rfl,
   (C6_cleanup_exactly_once Main.envHappy).2.2.1 "raw.mp4" (some "Original Title") rfl rfl⟩

/-- C7: any initialization failure terminates the Job with an
`init`-tagged error (`Service Start Failed:`) before any stage event;
missing storage credentials make the `DriveUploader` constructor fail
with its fixed message; and a storage authentication failure at
construction time surfaces as that same init error — the upload stage
(and even the download stage) never runs, so it is not a publish-stage
error. -/
theorem C7_init_failure_before_stages (env : Main.PipelineEnv) :
    (∀ e, Main.initAll env = .error e →
      (Main.process_video env).response = .httpError ("Service Start Failed: " ++ e) ∧
      (Main.process_video env).events = []) ∧
    ((truthy env.driveEnv.client_id && truthy env.driveEnv.client_secret &&
        truthy env.driveEnv.refresh_token) = false →
      Uploader.DriveUploader_init env.driveEnv =
        .error "Missing Google OAuth credentials in environment variables.") ∧
    (∀ m, env.downloaderInit = .ok () → Main.AIProcessor_init env.apiKey = .ok () →
      env.editorInit = .ok () →
      (truthy env.driveEnv.client_id && truthy env.driveEnv.client_secret &&
        truthy env.driveEnv.refresh_token) = true →
      env.driveEnv.authResult = .error m →
      (Main.process_video env).response = .httpError ("Service Start Failed: " ++ m) ∧
      Main.Ev.upload ∉ (Main.process_video env).events ∧
      Main.Ev.download ∉ (Main.process_video env).events) := by
  refine ⟨?_, ?_, ?_⟩
  · intro e he
    rw [Main.run_init_error env e he]
    exact ⟨rfl, rfl⟩
  · intro h
    unfold Uploader.DriveUploader_init
    rw [h]
    rfl
  · intro m h1 h2 h3 htr hm
    have hinit : Main.initAll env = .error m := by
      unfold Main.initAll Uploader.DriveUploader_init
      rw [h1, h2, h3, htr]
      simpa using hm
    rw [Main.run_init_error env m hinit]
    exact ⟨rfl, by simp, by simp⟩

/-- C7 (witness): a concrete run whose Drive authentication raises at
construction time. -/
theorem C7_init_failure_before_stages_witness :
    (Main.process_video Main.envAuthErr).response =
      .httpError ("Service Start Failed: " ++ "invalid_grant") ∧
    Main.Ev.upload ∉ (Main.process_video Main.envAuthErr).events ∧
    Main.Ev.download ∉ (Main.process_video Main.envAuthErr).events :=
  (C7_init_failure_before_stages Main.envAuthErr).2.2 "invalid_grant" rfl rfl rfl rfl rfl

/-- C9: on a successful pipeline run whose AI data omits
`suggested_title`, the response's `generated_short_title` falls back to
the original video title from the download stage; and when `reasoning`
is absent the response's reasoning field is the empty string. -/
theorem C9_response_fallbacks (env : Main.PipelineEnv) (fp t st en fid link : String)
    (ai_data : Intelligence.AIData)
    (hinit : Main.initAll env = .ok ())
    (hd : env.download = .ok fp (some t))
    (hga : (Intelligence.get_timestamps env.analyzeEnv).result = .ok ai_data)
    (hs : ai_data.start_time = some st) (he : ai_data.end_time = some en)
    (hst : ai_data.suggested_title = none)
    (hed : Editor.editorFails env.editorEnv = false)
    (hup : (Uploader.upload_file env.uploadEnv env.driveEnv.parent_folder_id env.editOutPath
        t).1 = .ok fid link) :
    (Main.process_video env).response =
      .success t t link st en (ai_data.reasoning.getD "") ∧
    (ai_data.reasoning = none →
      (Main.process_video env).response = .success t t link st en "") := by
  have harg : ai_data.suggested_title.getD ((some t).getD "Untitled Video") = t := by
    rw [hst]
    rfl
  have hee := Editor.process_video_ok env.editorEnv fp st en env.editOutPath hed
  have hrun := Main.run_success env fp (some t) ai_data st en env.editOutPath fid link
    hinit hd hga hs he hee (by rw [harg]; exact hup)
  constructor
  · rw [hrun]
    simp [hst]
  · intro hr
    rw [hrun]
    simp [hst, hr]

/-- C9 (witness): the concrete fully successful run of `envHappy`, whose
AI data has neither `suggested_title` nor `reasoning`. -/
theorem C9_response_fallbacks_witness :
    (Main.process_video Main.envHappy).response =
      .success "Original Title" "Original Title" "https://drive/v" "00:00:10" "00:01:20" "" :=
  (C9_response_fallbacks Main.envHappy "raw.mp4" "Original Title" "00:00:10" "00:01:20"
      "fid" "https://drive/v" ⟨some "00:00:10", some "00:01:20", some 9, none, none⟩
      rfl rfl rfl rfl rfl rfl rfl rfl).2 rfl

/-- C10: `cleanup_files` is total — for every path list and every
filesystem/removal behaviour it returns a log (never an exception), each
logged deletion attempt concerns a truthy path that exists, a `None`
entry is skipped silently, and an entry naming an absent file is skipped
silently. -/
theorem C10_cleanup_total (fsExists removeOk : String → Bool) (ps : List (Option String)) :
    (∃ log, Main.cleanup_files fsExists removeOk ps = .ok log ∧
      ∀ e ∈ log, fsExists (Main.entryPath e) = true ∧ (Main.entryPath e).isEmpty = false) ∧
    Main.cleanup_files fsExists removeOk (none :: ps) =
      Main.cleanup_files fsExists removeOk ps ∧
    (∀ s, fsExists s = false →
      Main.cleanup_files fsExists removeOk (some s :: ps) =
        Main.cleanup_files fsExists removeOk ps) := by
  refine ⟨Main.cleanup_files_ok fsExists removeOk ps, rfl, ?_⟩
  intro s hs
  obtain ⟨log, hlog, -⟩ := Main.cleanup_files_ok fsExists removeOk ps
  simp [Main.cleanup_files, hlog, hs]

/-- C10 (witness): skipping an absent file at a concrete input. -/
theorem C10_cleanup_total_witness :
    Main.cleanup_files (fun s => s == "a") (fun _ => false) [some "zzz", some "b"] =
      Main.cleanup_files (fun s => s == "a") (fun _ => false) [some "b"] :=
  (C10_cleanup_total (fun s => s == "a") (fun _ => false) [some "b"]).2.2 "zzz" rfl

end Shorts
